import Mathlib

/-!
Verification of the CPT residual-land-value calculator (`src/app.py`).

The program's arithmetic is embedded shallowly over `ℚ`: every numeric
literal of the source (`514.10`, `0.125`, `0.20`, `1e6`, ...) denotes an
exact rational, and Python's fallible dict indexing is modelled with
`Option`.  Definitions mirror the source functions line by line and keep
their names.
-/

/-- One entry of the `ZONING` table: the dict `{"ff": ..., "coverage": ...}`. -/
structure ZoningPreset where
  ff : ℚ
  coverage : ℚ
deriving DecidableEq, Repr

/-- The `ZONING` dict from `src/app.py` lines 7-13, as an association list
keyed by the exact key strings of the source. -/
def ZONING : List (String × ZoningPreset) :=
  [("GR2 (Residential - 1.0 FF)", ⟨1.0, 0.6⟩),
   ("GR4 (High Density - 1.5 FF)", ⟨1.5, 0.6⟩),
   ("MU1 (Mixed Use - 1.5 FF)", ⟨1.5, 0.75⟩),
   ("MU2 (High Density Mixed - 4.0 FF)", ⟨4.0, 1.0⟩),
   ("GB7 (CBD/High Rise - 12.0 FF)", ⟨12.0, 1.0⟩)]

/-- Python dict indexing `ZONING[key]`: `some` preset on a present key,
`none` where the source raises `KeyError`. -/
def zoningLookup (key : String) : Option ZoningPreset :=
  (ZONING.find? (fun p => p.1 == key)).map Prod.snd

/-- `DC_RATE = 514.10` from `src/app.py` line 15. -/
def DC_RATE : ℚ := 514.10

/-- `IH_CAP_PRICE = 15000` from `src/app.py` line 16. -/
def IH_CAP_PRICE : ℚ := 15000

/-- The dict returned by `calculate_metrics`: keys `rlv`, `bulk`, `dcs`, `gdv`. -/
structure Metrics where
  rlv : ℚ
  bulk : ℚ
  dcs : ℚ
  gdv : ℚ
deriving DecidableEq, Repr

/-- `calculate_metrics` from `src/app.py` lines 70-87, transcribed
let-for-let with the source's own operand grouping. -/
def calculate_metrics (land ff bonus ih m_price c_cost : ℚ) : Metrics :=
  let total_bulk := (land * ff) * (1 + (bonus / 100))
  let ih_bulk := total_bulk * (ih / 100)
  let market_bulk := total_bulk - ih_bulk
  let gdv := (market_bulk * m_price) + (ih_bulk * IH_CAP_PRICE)
  let dev_charges := market_bulk * DC_RATE
  let construction := total_bulk * c_cost
  let fees := construction * 0.125
  let profit_target := gdv * 0.20
  let rlv := gdv - construction - dev_charges - fees - profit_target
  ⟨rlv, total_bulk, dev_charges, gdv⟩

/-- The spec's nine-step reference formula (its named outputs), written
from the spec's words for comparison against `calculate_metrics`. -/
structure SpecOutput where
  rlv : ℚ
  totalBulk : ℚ
  devCharges : ℚ
  gdv : ℚ

/-- Reference valuation of spec section 4.2, steps 1-9, written from the
spec's words (not from the source). -/
def spec_computeMetrics (landArea floorFactor densityBonusPct inclusionaryPct
    marketPrice constructionCost : ℚ) : SpecOutput :=
  let totalBulk := landArea * floorFactor * (1 + densityBonusPct / 100)
  let ihBulk := totalBulk * (inclusionaryPct / 100)
  let marketBulk := totalBulk - ihBulk
  let gdv := marketBulk * marketPrice + ihBulk * 15000
  let devCharges := marketBulk * 514.10
  let construction := totalBulk * constructionCost
  let fees := construction * 0.125
  let profitTarget := gdv * 0.20
  let rlv := gdv - construction - devCharges - fees - profitTarget
  ⟨rlv, totalBulk, devCharges, gdv⟩

/-- Python's `round` on an exact rational: nearest integer, ties to even. -/
def pyRoundInt (q : ℚ) : ℤ :=
  let f := q.floor
  if q - f < 1 / 2 then f
  else if 1 / 2 < q - f then f + 1
  else if f % 2 = 0 then f else f + 1

/-- Python's `round(q, 2)` on an exact rational. -/
def round2 (q : ℚ) : ℚ := (pyRoundInt (q * 100) : ℚ) / 100

/-- The loop bound `ih_levels = [0, 10, 20, 30]` of `build_sensitivity_table`. -/
def ih_levels : List ℕ := [0, 10, 20, 30]

/-- The loop bound `bonus_levels = [0, 20, 40, 60, 80, 100]` of
`build_sensitivity_table`. -/
def bonus_levels : List ℕ := [0, 20, 40, 60, 80, 100]

/-- The DataFrame built by `build_sensitivity_table`: cell matrix, row
index labels, column labels. -/
structure SensTable where
  matrix : List (List ℚ)
  index : List String
  columns : List String

/-- `build_sensitivity_table` from `src/app.py` lines 90-107: one row per
inclusionary level, one column per bonus level, each cell
`round(rlv / 1e6, 2)`; labels built from the level numbers as in the
source's f-strings. -/
def build_sensitivity_table (land_size ff_val market_price const_cost : ℚ) : SensTable :=
  ⟨ih_levels.map (fun ih => bonus_levels.map (fun b =>
      round2 ((calculate_metrics land_size ff_val (b : ℚ) (ih : ℚ)
        market_price const_cost).rlv / 1e6))),
   ih_levels.map (fun i => Nat.repr i ++ "% IH"),
   bonus_levels.map (fun b => "+" ++ Nat.repr b ++ "% Bonus")⟩

/-- The Residual Land Value figure shown by `render_metrics`
(`src/app.py` line 121): `max(0, rlv / 1e6)` — the only clamping in the
program, in the presentation layer. -/
def render_rlv_display (outputs : Metrics) : ℚ := max 0 (outputs.rlv / 1e6)

/-- C1: `calculate_metrics` agrees field-for-field with the spec's
nine-step reference formula on every input, and the constants are exactly
`DC_RATE = 514.10` and `IH_CAP_PRICE = 15000`. -/
theorem C1_computeMetrics_matches_reference
    (land ff bonus ih m_price c_cost : ℚ) :
    (calculate_metrics land ff bonus ih m_price c_cost).rlv
        = (spec_computeMetrics land ff bonus ih m_price c_cost).rlv
    ∧ (calculate_metrics land ff bonus ih m_price c_cost).bulk
        = (spec_computeMetrics land ff bonus ih m_price c_cost).totalBulk
    ∧ (calculate_metrics land ff bonus ih m_price c_cost).dcs
        = (spec_computeMetrics land ff bonus ih m_price c_cost).devCharges
    ∧ (calculate_metrics land ff bonus ih m_price c_cost).gdv
        = (spec_computeMetrics land ff bonus ih m_price c_cost).gdv
    ∧ DC_RATE = 514.10 ∧ IH_CAP_PRICE = 15000 :=
  ⟨rfl, rfl, rfl, rfl, rfl, rfl⟩

/-- C3: the concrete scenario landArea=1000, floorFactor=1.0, bonus=20,
inclusionary=20, marketPrice=45000, constructionCost=17000 yields
totalBulk 1200, gdv 46,800,000, devCharges 493,536, rlv 13,996,464, with
the stated intermediates. -/
theorem C3_concrete_scenario :
    (calculate_metrics 1000 1.0 20 20 45000 17000).bulk = 1200
    ∧ (calculate_metrics 1000 1.0 20 20 45000 17000).gdv = 46800000
    ∧ (calculate_metrics 1000 1.0 20 20 45000 17000).dcs = 493536
    ∧ (calculate_metrics 1000 1.0 20 20 45000 17000).rlv = 13996464
    ∧ (calculate_metrics 1000 1.0 20 20 45000 17000).bulk * (20 / 100) = 240
    ∧ (calculate_metrics 1000 1.0 20 20 45000 17000).bulk * (1 - 20 / 100) = 960
    ∧ (calculate_metrics 1000 1.0 20 20 45000 17000).bulk * 17000 = 20400000
    ∧ (calculate_metrics 1000 1.0 20 20 45000 17000).bulk * 17000 * 0.125 = 2550000
    ∧ (calculate_metrics 1000 1.0 20 20 45000 17000).gdv * 0.20 = 9360000 := by
  norm_num [calculate_metrics, DC_RATE, IH_CAP_PRICE]

/-- C4 counterexample: the key "GR2 (Residential - 1.0 FF)" is not one of
the five short preset ids the claim fixes, yet the catalog lookup succeeds
on it instead of failing. -/
theorem C4_counterexample :
    "GR2 (Residential - 1.0 FF)" ∉ ["GR2", "GR4", "MU1", "MU2", "GB7"]
    ∧ zoningLookup "GR2 (Residential - 1.0 FF)" = some ⟨1.0, 0.6⟩ :=
  ⟨by decide, rfl⟩

/-- C4 (amended): for every key that is not one of the catalog's five
actual key strings, the lookup fails (the dict indexing raises `KeyError`,
modelled as `none`) and never yields a default preset. -/
theorem C4_unknown_key_lookup_fails (key : String)
    (h : key ∉ ZONING.map Prod.fst) : zoningLookup key = none := by
  have hfind : ZONING.find? (fun p => p.1 == key) = none := by
    rw [List.find?_eq_none]
    intro x hx
    simp only [beq_iff_eq]
    intro hk
    exact h (hk ▸ List.mem_map_of_mem Prod.fst hx)
  simp [zoningLookup, hfind]

/-- C4 witness: the unknown id "ZZ9" is rejected. -/
theorem C4_witness :
    "ZZ9" ∉ ZONING.map Prod.fst ∧ zoningLookup "ZZ9" = none :=
  ⟨by decide, C4_unknown_key_lookup_fails "ZZ9" (by decide)⟩

/-- C5 counterexample: looking up the short id "GR2" fails — the catalog
is not keyed by the five short ids the claim states. -/
theorem C5_counterexample :
    zoningLookup "GR2" = none ∧ zoningLookup "GB7" = none :=
  ⟨rfl, rfl⟩

/-- C5 (amended): the catalog has exactly five entries, keyed by the full
label strings, and each lookup returns the stated
(floorFactor, coverageRatio) pair. -/
theorem C5_catalog_entries :
    ZONING.length = 5
    ∧ ZONING.map Prod.fst
        = ["GR2 (Residential - 1.0 FF)", "GR4 (High Density - 1.5 FF)",
           "MU1 (Mixed Use - 1.5 FF)", "MU2 (High Density Mixed - 4.0 FF)",
           "GB7 (CBD/High Rise - 12.0 FF)"]
    ∧ zoningLookup "GR2 (Residential - 1.0 FF)" = some ⟨1.0, 0.6⟩
    ∧ zoningLookup "GR4 (High Density - 1.5 FF)" = some ⟨1.5, 0.6⟩
    ∧ zoningLookup "MU1 (Mixed Use - 1.5 FF)" = some ⟨1.5, 0.75⟩
    ∧ zoningLookup "MU2 (High Density Mixed - 4.0 FF)" = some ⟨4.0, 1.0⟩
    ∧ zoningLookup "GB7 (CBD/High Rise - 12.0 FF)" = some ⟨12.0, 1.0⟩ :=
  ⟨rfl, rfl, rfl, rfl, rfl, rfl, rfl⟩

/-- C6: at inclusionaryPct = 0 the gdv is exactly totalBulk * marketPrice,
and at inclusionaryPct = 100 it is exactly totalBulk * IH_CAP_PRICE. -/
theorem C6_gdv_at_ih_extremes (land ff bonus price cost : ℚ) :
    (calculate_metrics land ff bonus 0 price cost).gdv
      = (calculate_metrics land ff bonus 0 price cost).bulk * price
    ∧ (calculate_metrics land ff bonus 100 price cost).gdv
      = (calculate_metrics land ff bonus 100 price cost).bulk * IH_CAP_PRICE := by
  constructor <;> (simp only [calculate_metrics]; ring)

/-- C10: the outputs satisfy the closed form
rlv = 0.8 * gdv - 1.125 * (totalBulk * constructionCost) - devCharges. -/
theorem C10_rlv_closed_form (land ff bonus ih price cost : ℚ) :
    (calculate_metrics land ff bonus ih price cost).rlv
      = 0.8 * (calculate_metrics land ff bonus ih price cost).gdv
        - 1.125 * ((calculate_metrics land ff bonus ih price cost).bulk * cost)
        - (calculate_metrics land ff bonus ih price cost).dcs := by
  simp only [calculate_metrics]
  ring

/-- C7: holding the other inputs fixed inside the stated domain, the gdv
returned by `calculate_metrics` is monotonically non-decreasing in the
market price. -/
theorem C7_gdv_monotone_in_market_price
    (land ff bonus ih cost p q : ℚ)
    (hland : 0 < land) (hff : 0 < ff)
    (hb0 : 0 ≤ bonus) (hb1 : bonus ≤ 100)
    (hi0 : 0 ≤ ih) (hi1 : ih ≤ 100)
    (hcost : 0 < cost) (hp : p ≤ q) :
    (calculate_metrics land ff bonus ih p cost).gdv
      ≤ (calculate_metrics land ff bonus ih q cost).gdv := by
  simp only [calculate_metrics]
  have htb : 0 < (land * ff) * (1 + (bonus / 100)) := by
    have h1 : (0:ℚ) < 1 + bonus / 100 := by linarith
    exact mul_pos (mul_pos hland hff) h1
  have hmb : 0 ≤ (land * ff) * (1 + (bonus / 100))
      - (land * ff) * (1 + (bonus / 100)) * (ih / 100) := by
    have h2 : (0:ℚ) ≤ 1 - ih / 100 := by linarith
    nlinarith
  linarith [mul_le_mul_of_nonneg_left hp hmb]

/-- C7 witness: the monotonicity theorem applied at a concrete scenario. -/
theorem C7_witness :
    ((0:ℚ) < 1000 ∧ (0:ℚ) < 1 ∧ (0:ℚ) ≤ 20 ∧ (20:ℚ) ≤ 100
      ∧ (0:ℚ) ≤ 20 ∧ (20:ℚ) ≤ 100 ∧ (0:ℚ) < 17000 ∧ (45000:ℚ) ≤ 50000)
    ∧ (calculate_metrics 1000 1 20 20 45000 17000).gdv
        ≤ (calculate_metrics 1000 1 20 20 50000 17000).gdv :=
  ⟨⟨by norm_num, by norm_num, by norm_num, by norm_num, by norm_num,
    by norm_num, by norm_num, by norm_num⟩,
   C7_gdv_monotone_in_market_price 1000 1 20 20 17000 45000 50000
     (by norm_num) (by norm_num) (by norm_num) (by norm_num) (by norm_num)
     (by norm_num) (by norm_num) (by norm_num)⟩

/-- C8 counterexample: at the valid input land=1, ff=1, bonus=0,
inclusionary=100, price=1, cost=1 the devCharges output is exactly 0, so
it is not strictly positive as the claim states. -/
theorem C8_counterexample :
    ((0:ℚ) < 1 ∧ (0:ℚ) ≤ 0 ∧ (0:ℚ) ≤ 100 ∧ (100:ℚ) ≤ 100)
    ∧ (calculate_metrics 1 1 0 100 1 1).dcs = 0
    ∧ ¬ (0 < (calculate_metrics 1 1 0 100 1 1).dcs) := by
  norm_num [calculate_metrics, DC_RATE, IH_CAP_PRICE]

/-- C8 (amended): on the stated domain, totalBulk and gdv are strictly
positive; devCharges is nonnegative, and strictly positive exactly when
inclusionaryPct < 100 (at 100 it is zero, as the counterexample shows). -/
theorem C8_output_signs
    (land ff bonus ih price cost : ℚ)
    (hland : 0 < land) (hff : 0 < ff) (hprice : 0 < price) (hcost : 0 < cost)
    (hb0 : 0 ≤ bonus) (hb1 : bonus ≤ 100) (hi0 : 0 ≤ ih) (hi1 : ih ≤ 100) :
    0 < (calculate_metrics land ff bonus ih price cost).bulk
    ∧ 0 < (calculate_metrics land ff bonus ih price cost).gdv
    ∧ 0 ≤ (calculate_metrics land ff bonus ih price cost).dcs
    ∧ (ih < 100 → 0 < (calculate_metrics land ff bonus ih price cost).dcs) := by
  simp only [calculate_metrics, DC_RATE, IH_CAP_PRICE]
  have htb : 0 < (land * ff) * (1 + (bonus / 100)) := by
    have h1 : (0:ℚ) < 1 + bonus / 100 := by linarith
    exact mul_pos (mul_pos hland hff) h1
  have hs0 : (0:ℚ) ≤ ih / 100 := by linarith
  have hs1 : (0:ℚ) ≤ 1 - ih / 100 := by linarith
  have hmb : 0 ≤ (land * ff) * (1 + (bonus / 100))
      - (land * ff) * (1 + (bonus / 100)) * (ih / 100) := by
    nlinarith
  refine ⟨htb, ?_, ?_, ?_⟩
  · rcases eq_or_lt_of_le hi1 with heq | hlt
    · subst heq
      nlinarith
    · have h2 : (0:ℚ) < 1 - ih / 100 := by linarith
      have h3 : 0 < ((land * ff) * (1 + (bonus / 100))) * (1 - ih / 100) :=
        mul_pos htb h2
      have h4 : 0 ≤ ((land * ff) * (1 + (bonus / 100))) * (ih / 100) :=
        mul_nonneg htb.le hs0
      nlinarith
  · nlinarith
  · intro hlt
    have h2 : (0:ℚ) < 1 - ih / 100 := by linarith
    have h3 : 0 < ((land * ff) * (1 + (bonus / 100))) * (1 - ih / 100) :=
      mul_pos htb h2
    nlinarith

/-- C8 witness: the sign theorem applied at a concrete valid scenario. -/
theorem C8_witness :
    (0 < (calculate_metrics 1000 1 20 20 45000 17000).bulk
    ∧ 0 < (calculate_metrics 1000 1 20 20 45000 17000).gdv
    ∧ 0 ≤ (calculate_metrics 1000 1 20 20 45000 17000).dcs
    ∧ ((20:ℚ) < 100 → 0 < (calculate_metrics 1000 1 20 20 45000 17000).dcs)) :=
  C8_output_signs 1000 1 20 20 45000 17000
    (by norm_num) (by norm_num) (by norm_num) (by norm_num)
    (by norm_num) (by norm_num) (by norm_num) (by norm_num)

/-- C9: `calculate_metrics` returns the rlv of the reference formula
unclamped on every input; there is a valid input where that rlv is
negative, and on it the presentation layer's `render_metrics` figure —
the only `max(0, ...)` in the program — displays 0 while the core still
returns the negative value. -/
theorem C9_rlv_never_clamped :
    (∀ land ff bonus ih price cost : ℚ,
        (calculate_metrics land ff bonus ih price cost).rlv
          = (spec_computeMetrics land ff bonus ih price cost).rlv)
    ∧ ((0:ℚ) < 1000 ∧ (0:ℚ) < 1 ∧ (0:ℚ) ≤ 0 ∧ (0:ℚ) ≤ 100
        ∧ (0:ℚ) < 20000 ∧ (0:ℚ) < 25000)
    ∧ (calculate_metrics 1000 1 0 0 20000 25000).rlv = -12639100
    ∧ (calculate_metrics 1000 1 0 0 20000 25000).rlv < 0
    ∧ render_rlv_display (calculate_metrics 1000 1 0 0 20000 25000) = 0 := by
  have h : (calculate_metrics 1000 1 0 0 20000 25000).rlv = -12639100 := by
    norm_num [calculate_metrics, DC_RATE, IH_CAP_PRICE]
  refine ⟨fun _ _ _ _ _ _ => rfl, by norm_num, h, by rw [h]; norm_num, ?_⟩
  simp only [render_rlv_display, h]
  exact max_eq_left (by norm_num)

/-- C2: `build_sensitivity_table` always yields exactly 4 rows of 6 cells,
with the fixed row and column labels in ascending level order, and every
cell is `round(rlv / 1e6, 2)` of `calculate_metrics` at that row's
inclusionary level and that column's bonus level. -/
theorem C2_grid_shape_labels_cells (land ff price cost : ℚ) :
    (build_sensitivity_table land ff price cost).matrix.length = 4
    ∧ (build_sensitivity_table land ff price cost).matrix.map List.length
        = [6, 6, 6, 6]
    ∧ (build_sensitivity_table land ff price cost).index
        = ["0% IH", "10% IH", "20% IH", "30% IH"]
    ∧ (build_sensitivity_table land ff price cost).columns
        = ["+0% Bonus", "+20% Bonus", "+40% Bonus",
           "+60% Bonus", "+80% Bonus", "+100% Bonus"]
    ∧ ∀ (i : Fin 4) (j : Fin 6),
        (((build_sensitivity_table land ff price cost).matrix.getD (i : ℕ) []).getD
            (j : ℕ) 0)
          = round2 ((calculate_metrics land ff ((bonus_levels.getD (j : ℕ) 0 : ℕ) : ℚ)
              ((ih_levels.getD (i : ℕ) 0 : ℕ) : ℚ) price cost).rlv / 1e6) := by
  refine ⟨rfl, rfl, ?_, ?_, ?_⟩
  · show ih_levels.map (fun i => Nat.repr i ++ "% IH")
        = ["0% IH", "10% IH", "20% IH", "30% IH"]
    decide
  · show bonus_levels.map (fun b => "+" ++ Nat.repr b ++ "% Bonus")
        = ["+0% Bonus", "+20% Bonus", "+40% Bonus",
           "+60% Bonus", "+80% Bonus", "+100% Bonus"]
    decide
  · intro i j
    fin_cases i <;> fin_cases j <;> rfl
